import Mathlib

/-!
# Verification of the JOSAA preference-list generator

A shallow embedding, in Lean 4, of the probability estimator and the
preference pipeline of the JOSAA_preference repository, together with
theorems settling the frozen claims about its specification.

The repository contains three near-duplicate implementations:
* `app.py` — `ProbabilityCalculator.calculate_probability` (spread term
  `max((closing-opening)/10, 1)`, un-normalized mid-window segments) and a
  full-scan `generate_preference_list` without input validation and without
  a distinguished empty result;
* `app/utils.py` — `hybrid_probability_calculation` (spread `(c-o)/10`
  replaced by `1` only when it is exactly `0`, normalized mid-window
  segments), `validate_inputs`, and a windowed `generate_preference_list`
  with validation and a distinguished "no matches" message;
* `app/main.py` — `hybrid_probability_calculation` identical to the
  `utils.py` one, and `predict_preferences`, which performs the same
  pipeline steps as `utils.py`'s `generate_preference_list` but without
  input validation.

Python's float arithmetic is modelled by exact ordered-field arithmetic
(`ℚ`/`ℝ`), with `math.exp` modelled by `Real.exp`.  Decimal literals such
as `0.2` denote the exact rationals the source writes.
-/

namespace Josaa

/-- The four-segment window score for `opening_rank < rank < closing_rank`,
as a function of `position = (rank - opening_rank) / (closing_rank -
opening_rank)` — the normalized form of `app/utils.py`
(`hybrid_probability_calculation`, lines 69-79) and `app/main.py`
(lines 86-93). -/
def window_score {α : Type} [LinearOrderedField α] (position : α) : α :=
  if position ≤ 0.2 then 94 - position * 70
  else if position ≤ 0.5 then 80 - (position - 0.2) / 0.3 * 20
  else if position ≤ 0.8 then 60 - (position - 0.5) / 0.3 * 20
  else 40 - (position - 0.8) / 0.2 * 20

/-- The four-segment window score of `app.py`
(`ProbabilityCalculator.calculate_probability`, lines 37-44): the mid and
last segments are NOT normalized (`80 - position*20`, `60 - position*20`,
`40 - position*20`). -/
def window_score_app {α : Type} [LinearOrderedField α] (position : α) : α :=
  if position ≤ 0.2 then 94 - position * 70
  else if position ≤ 0.5 then 80 - position * 20
  else if position ≤ 0.8 then 60 - position * 20
  else 40 - position * 20

/-- Piece-wise sub-score of `app/utils.py` `hybrid_probability_calculation`
(lines 57-85): rank-region classifier over
`(rank, opening_rank, closing_rank)`. -/
def piece_wise_prob {α : Type} [LinearOrderedField α]
    (rank opening_rank closing_rank : α) : α :=
  if rank < opening_rank then
    (if (opening_rank - rank) / opening_rank ≥ 0.5 then 99
     else 96 + (opening_rank - rank) / opening_rank * 6)
  else if rank = opening_rank then 95
  else if rank < closing_rank then
    window_score ((rank - opening_rank) / (closing_rank - opening_rank))
  else if rank = closing_rank then 15
  else if rank ≤ closing_rank + 10 then 5
  else 0

/-- Piece-wise sub-score of `app.py` (lines 26-50), identical to
`piece_wise_prob` except for the un-normalized window segments. -/
def piece_wise_prob_app {α : Type} [LinearOrderedField α]
    (rank opening_rank closing_rank : α) : α :=
  if rank < opening_rank then
    (if (opening_rank - rank) / opening_rank ≥ 0.5 then 99
     else 96 + (opening_rank - rank) / opening_rank * 6)
  else if rank = opening_rank then 95
  else if rank < closing_rank then
    window_score_app ((rank - opening_rank) / (closing_rank - opening_rank))
  else if rank = closing_rank then 15
  else if rank ≤ closing_rank + 10 then 5
  else 0

/-- Spread term of `app/utils.py` (lines 52-54) and `app/main.py`
(lines 70-72): `S = (closing - opening)/10`, replaced by `1` only when it
is exactly `0`. -/
def spread_utils {α : Type} [LinearOrderedField α]
    (opening_rank closing_rank : α) : α :=
  if (closing_rank - opening_rank) / 10 = 0 then 1
  else (closing_rank - opening_rank) / 10

/-- Spread term of `app.py` (line 22): `S = max((closing - opening)/10, 1)`. -/
def spread_app {α : Type} [LinearOrderedField α]
    (opening_rank closing_rank : α) : α :=
  max ((closing_rank - opening_rank) / 10) 1

/-- Logistic sub-score (`1 / (1 + exp((rank - M)/S)) * 100`), common to all
three estimator variants. -/
noncomputable def logistic_prob (rank M S : ℝ) : ℝ :=
  1 / (1 + Real.exp ((rank - M) / S)) * 100

/-- Python's `round(x, 2)` modelled on the reals: round to the nearest
two-decimal value.  (Python rounds exact half-way points to even; no value
evaluated in this file lies on a half-way point, so the round-half-up
`round` of Mathlib agrees with it everywhere it is used.) -/
noncomputable def round2 (x : ℝ) : ℝ := (round (x * 100) : ℤ) / 100

/-- The blend of `app/utils.py` `hybrid_probability_calculation`
(lines 50-100) before the final `round(_, 2)`. -/
noncomputable def hybrid_raw (rank opening_rank closing_rank : ℝ) : ℝ :=
  if rank < opening_rank then
    (if (opening_rank - rank) / opening_rank > 0.5 then
       max (logistic_prob rank ((opening_rank + closing_rank) / 2)
              (spread_utils opening_rank closing_rank)) 95
     else
       logistic_prob rank ((opening_rank + closing_rank) / 2)
           (spread_utils opening_rank closing_rank) * 0.4
         + piece_wise_prob rank opening_rank closing_rank * 0.6)
  else if rank ≤ closing_rank then
    logistic_prob rank ((opening_rank + closing_rank) / 2)
        (spread_utils opening_rank closing_rank) * 0.7
      + piece_wise_prob rank opening_rank closing_rank * 0.3
  else if rank > closing_rank + 100 then 0
  else min (logistic_prob rank ((opening_rank + closing_rank) / 2)
              (spread_utils opening_rank closing_rank)) 5

/-- `hybrid_probability_calculation` of `app/utils.py` (lines 47-102) and
`app/main.py` (lines 67-109): the probability estimator, returning
`round(final_prob, 2)`. -/
noncomputable def hybrid_probability_calculation
    (rank opening_rank closing_rank : ℝ) : ℝ :=
  round2 (hybrid_raw rank opening_rank closing_rank)

/-- The blend of `app.py` `ProbabilityCalculator.calculate_probability`
(lines 18-67) before the final rounding; differs from `hybrid_raw` only in
the spread term and the window segments. -/
noncomputable def calculate_probability_raw
    (rank opening_rank closing_rank : ℝ) : ℝ :=
  if rank < opening_rank then
    (if (opening_rank - rank) / opening_rank > 0.5 then
       max (logistic_prob rank ((opening_rank + closing_rank) / 2)
              (spread_app opening_rank closing_rank)) 95
     else
       logistic_prob rank ((opening_rank + closing_rank) / 2)
           (spread_app opening_rank closing_rank) * 0.4
         + piece_wise_prob_app rank opening_rank closing_rank * 0.6)
  else if rank ≤ closing_rank then
    logistic_prob rank ((opening_rank + closing_rank) / 2)
        (spread_app opening_rank closing_rank) * 0.7
      + piece_wise_prob_app rank opening_rank closing_rank * 0.3
  else if rank > closing_rank + 100 then 0
  else min (logistic_prob rank ((opening_rank + closing_rank) / 2)
              (spread_app opening_rank closing_rank)) 5

/-- `ProbabilityCalculator.calculate_probability` of `app.py`
(lines 18-67). -/
noncomputable def calculate_probability
    (rank opening_rank closing_rank : ℝ) : ℝ :=
  round2 (calculate_probability_raw rank opening_rank closing_rank)

/-- `get_probability_interpretation` of `app/utils.py` (lines 108-121),
`app/main.py` (lines 114-126) and `get_interpretation` of `app.py`
(lines 72-83): the interpretation label lookup. -/
def get_probability_interpretation {α : Type} [LinearOrderedField α]
    (probability : α) : String :=
  if probability ≥ 95 then "Very High Chance"
  else if probability ≥ 80 then "High Chance"
  else if probability ≥ 60 then "Moderate Chance"
  else if probability ≥ 40 then "Low Chance"
  else if probability > 0 then "Very Low Chance"
  else "No Chance"

/-! ### Basic facts about the sub-scores -/

lemma exp_five_ge : (99 : ℝ) ≤ Real.exp 5 := by
  have h1 : Real.exp ((5 : ℕ) * 1) = Real.exp 1 ^ 5 := Real.exp_nat_mul 1 5
  have h2 : (2.7182818283 : ℝ) ^ 5 ≤ Real.exp 1 ^ 5 :=
    pow_le_pow_left (by norm_num) (le_of_lt Real.exp_one_gt_d9) 5
  have h3 : (99 : ℝ) ≤ (2.7182818283 : ℝ) ^ 5 := by norm_num
  calc (99 : ℝ) ≤ (2.7182818283 : ℝ) ^ 5 := h3
    _ ≤ Real.exp 1 ^ 5 := h2
    _ = Real.exp ((5 : ℕ) * 1) := h1.symm
    _ = Real.exp 5 := by norm_num

lemma exp_ten_ge : (10000 : ℝ) ≤ Real.exp 10 := by
  have h1 : Real.exp ((10 : ℕ) * 1) = Real.exp 1 ^ 10 := Real.exp_nat_mul 1 10
  have h2 : (2.7182818283 : ℝ) ^ 10 ≤ Real.exp 1 ^ 10 :=
    pow_le_pow_left (by norm_num) (le_of_lt Real.exp_one_gt_d9) 10
  have h3 : (10000 : ℝ) ≤ (2.7182818283 : ℝ) ^ 10 := by norm_num
  calc (10000 : ℝ) ≤ (2.7182818283 : ℝ) ^ 10 := h3
    _ ≤ Real.exp 1 ^ 10 := h2
    _ = Real.exp ((10 : ℕ) * 1) := h1.symm
    _ = Real.exp 10 := by norm_num

lemma logistic_prob_eq (r M S : ℝ) :
    logistic_prob r M S = 100 / (1 + Real.exp ((r - M) / S)) := by
  unfold logistic_prob; ring

lemma logistic_prob_pos (r M S : ℝ) : 0 < logistic_prob r M S := by
  rw [logistic_prob_eq]
  have h := Real.exp_pos ((r - M) / S)
  positivity

lemma logistic_prob_lt_100 (r M S : ℝ) : logistic_prob r M S < 100 := by
  rw [logistic_prob_eq]
  have h := Real.exp_pos ((r - M) / S)
  have h1 : 0 < 1 + Real.exp ((r - M) / S) := by linarith
  rw [div_lt_iff h1]
  nlinarith

lemma logistic_prob_anti {r1 r2 M S : ℝ} (hS : 0 < S) (h : r1 ≤ r2) :
    logistic_prob r2 M S ≤ logistic_prob r1 M S := by
  rw [logistic_prob_eq, logistic_prob_eq]
  have hE : Real.exp ((r1 - M) / S) ≤ Real.exp ((r2 - M) / S) := by
    apply Real.exp_le_exp.2
    apply div_le_div_of_nonneg_right _ (le_of_lt hS)
    linarith
  have h1 : 0 < 1 + Real.exp ((r1 - M) / S) := by
    have := Real.exp_pos ((r1 - M) / S); linarith
  apply div_le_div_of_nonneg_left (by norm_num) h1
  linarith

lemma logistic_prob_ge_99 {r M S : ℝ} (h : (r - M) / S ≤ -5) :
    (99 : ℝ) ≤ logistic_prob r M S := by
  rw [logistic_prob_eq]
  have hE : Real.exp ((r - M) / S) ≤ 1 / 99 := by
    have h1 : Real.exp ((r - M) / S) ≤ Real.exp (-5) := Real.exp_le_exp.2 h
    have h2 : Real.exp (-5) = (Real.exp 5)⁻¹ := Real.exp_neg 5
    have h3 : (Real.exp 5)⁻¹ ≤ (99 : ℝ)⁻¹ :=
      inv_le_inv_of_le (by norm_num) exp_five_ge
    rw [h2] at h1
    calc Real.exp ((r - M) / S) ≤ (Real.exp 5)⁻¹ := h1
      _ ≤ (99 : ℝ)⁻¹ := h3
      _ = 1 / 99 := by norm_num
  have hpos := Real.exp_pos ((r - M) / S)
  have h1 : 0 < 1 + Real.exp ((r - M) / S) := by linarith
  rw [le_div_iff h1]
  nlinarith

/-! ### Rounding -/

lemma round2_mono {x y : ℝ} (h : x ≤ y) : round2 x ≤ round2 y := by
  unfold round2
  have h1 : round (x * 100) ≤ round (y * 100) := by
    rw [round_eq, round_eq]
    exact Int.floor_mono (by linarith)
  have h2 : ((round (x * 100) : ℤ) : ℝ) ≤ ((round (y * 100) : ℤ) : ℝ) := by
    exact_mod_cast h1
  linarith

lemma round2_intval (n : ℤ) : round2 ((n : ℝ) / 100) = (n : ℝ) / 100 := by
  unfold round2
  have h : ((n : ℝ) / 100) * 100 = (n : ℝ) := by field_simp
  rw [h, round_intCast]

lemma round2_nonneg {x : ℝ} (h : 0 ≤ x) : 0 ≤ round2 x := by
  have h0 : round2 (((0 : ℤ) : ℝ) / 100) = ((0 : ℤ) : ℝ) / 100 := round2_intval 0
  have h1 : round2 ((0 : ℤ) / 100) ≤ round2 x := round2_mono (by simpa using h)
  simpa using le_trans (le_of_eq h0.symm) h1

lemma round2_le_100 {x : ℝ} (h : x ≤ 100) : round2 x ≤ 100 := by
  have h0 : round2 (((10000 : ℤ) : ℝ) / 100) = ((10000 : ℤ) : ℝ) / 100 :=
    round2_intval 10000
  have h1 : round2 x ≤ round2 (((10000 : ℤ) : ℝ) / 100) := by
    apply round2_mono; push_cast; linarith
  calc round2 x ≤ round2 (((10000 : ℤ) : ℝ) / 100) := h1
    _ = ((10000 : ℤ) : ℝ) / 100 := h0
    _ = 100 := by norm_num

lemma round2_neg_of_le {x : ℝ} (h : x ≤ -1) : round2 x < 0 := by
  have h0 : round2 (((-100 : ℤ) : ℝ) / 100) = ((-100 : ℤ) : ℝ) / 100 :=
    round2_intval (-100)
  have h1 : round2 x ≤ round2 (((-100 : ℤ) : ℝ) / 100) := by
    apply round2_mono; push_cast; linarith
  have h2 : round2 (((-100 : ℤ) : ℝ) / 100) < 0 := by
    rw [h0]; norm_num
  linarith

lemma round2_eq_div (x : ℝ) (n : ℤ) (h1 : (n : ℝ) - 1 / 2 ≤ x * 100)
    (h2 : x * 100 < (n : ℝ) + 1 / 2) : round2 x = (n : ℝ) / 100 := by
  unfold round2
  have h : round (x * 100) = n := by
    rw [round_eq]
    apply Int.floor_eq_iff.2
    constructor
    · linarith
    · push_cast; linarith
  rw [h]

/-! ### Window-score facts (real instantiation) -/

lemma window_score_anti {p1 p2 : ℝ} (h : p1 ≤ p2) :
    window_score p2 ≤ window_score p1 := by
  unfold window_score
  split_ifs <;> (ring_nf) <;> linarith

lemma window_score_le_94 {p : ℝ} (h : 0 ≤ p) : window_score p ≤ 94 := by
  have h1 : window_score p ≤ window_score 0 := window_score_anti h
  have h2 : window_score (0 : ℝ) = 94 := by norm_num [window_score]
  linarith

lemma window_score_ge_20 {p : ℝ} (h : p ≤ 1) : 20 ≤ window_score p := by
  have h1 : window_score 1 ≤ window_score p := window_score_anti h
  have h2 : window_score (1 : ℝ) = 20 := by norm_num [window_score]
  linarith

/-! ### Piece-wise score facts (real instantiation) -/

lemma piece_wise_prob_le_95 {r o c : ℝ} (h : o ≤ r) :
    piece_wise_prob r o c ≤ 95 := by
  unfold piece_wise_prob
  rw [if_neg (by linarith : ¬ r < o)]
  split_ifs with h1 h2 h3 h4
  · linarith
  · have hco : 0 < c - o := by
      rcases lt_or_eq_of_le h with h' | h'
      · linarith
      · exact absurd h'.symm h1
    have hp : 0 ≤ (r - o) / (c - o) := by
      apply div_nonneg (by linarith) (le_of_lt hco)
    linarith [window_score_le_94 hp]
  · linarith
  · linarith
  · linarith

lemma piece_wise_prob_nonneg_right {r o c : ℝ} (h : o ≤ r) :
    0 ≤ piece_wise_prob r o c := by
  unfold piece_wise_prob
  rw [if_neg (by linarith : ¬ r < o)]
  split_ifs with h1 h2 h3 h4
  · linarith
  · have hco : 0 < c - o := by
      rcases lt_or_eq_of_le h with h' | h'
      · linarith
      · exact absurd h'.symm h1
    have hp : (r - o) / (c - o) ≤ 1 := by
      rw [div_le_one hco]; linarith
    linarith [window_score_ge_20 hp]
  · linarith
  · linarith
  · linarith

lemma piece_wise_prob_at_opening {o c : ℝ} : piece_wise_prob o o c = 95 := by
  unfold piece_wise_prob
  rw [if_neg (lt_irrefl o), if_pos rfl]

lemma piece_wise_prob_window {r o c : ℝ} (h1 : o < r) (h2 : r < c) :
    piece_wise_prob r o c = window_score ((r - o) / (c - o)) := by
  unfold piece_wise_prob
  rw [if_neg (by linarith : ¬ r < o), if_neg (by linarith : r ≠ o), if_pos h2]

lemma piece_wise_prob_at_closing {o c : ℝ} (h : o < c) :
    piece_wise_prob c o c = 15 := by
  unfold piece_wise_prob
  rw [if_neg (by linarith : ¬ c < o), if_neg (by linarith : c ≠ o),
    if_neg (lt_irrefl c), if_pos rfl]

lemma piece_wise_prob_beyond {r o c : ℝ} (h1 : o < r) (h2 : c < r) :
    piece_wise_prob r o c = if r ≤ c + 10 then 5 else 0 := by
  unfold piece_wise_prob
  rw [if_neg (by linarith : ¬ r < o), if_neg (by linarith : r ≠ o),
    if_neg (by linarith : ¬ r < c), if_neg (by linarith : r ≠ c)]

lemma piece_wise_prob_ge_15 {r o c : ℝ} (h : o ≤ r) (h2 : r ≤ c) :
    15 ≤ piece_wise_prob r o c := by
  rcases eq_or_lt_of_le h with he | ho1
  · rw [← he, piece_wise_prob_at_opening]; norm_num
  rcases lt_or_eq_of_le h2 with hc | hc
  · rw [piece_wise_prob_window ho1 hc]
    have hco : 0 < c - o := by linarith
    have hp : (r - o) / (c - o) ≤ 1 := by rw [div_le_one hco]; linarith
    linarith [window_score_ge_20 hp]
  · rw [hc, piece_wise_prob_at_closing (by linarith)]

/-- For `o ≤ r1 ≤ r2` the piece-wise score is non-increasing. -/
lemma piece_wise_prob_anti_right {r1 r2 o c : ℝ} (h0 : o ≤ r1) (h12 : r1 ≤ r2) :
    piece_wise_prob r2 o c ≤ piece_wise_prob r1 o c := by
  rcases eq_or_lt_of_le h0 with he | ho1
  · -- r1 = o: score is 95, and everything at or right of o is ≤ 95
    rw [← he, piece_wise_prob_at_opening]
    exact piece_wise_prob_le_95 (by linarith)
  rcases lt_trichotomy r1 c with hc1 | hc1 | hc1
  · -- r1 strictly inside the window
    have hco : 0 < c - o := by linarith
    have hwge : 20 ≤ window_score ((r1 - o) / (c - o)) := by
      apply window_score_ge_20
      rw [div_le_one hco]; linarith
    rw [piece_wise_prob_window ho1 hc1]
    rcases lt_trichotomy r2 c with hc2 | hc2 | hc2
    · rw [piece_wise_prob_window (by linarith) hc2]
      apply window_score_anti
      apply div_le_div_of_nonneg_right (by linarith) (le_of_lt hco)
    · rw [hc2, piece_wise_prob_at_closing (by linarith)]; linarith
    · rw [piece_wise_prob_beyond (by linarith) hc2]
      split_ifs <;> linarith
  · -- r1 = c
    rw [hc1, piece_wise_prob_at_closing (by linarith)]
    rcases eq_or_lt_of_le (hc1 ▸ h12) with hc2 | hc2
    · rw [← hc2, piece_wise_prob_at_closing (by linarith)]
    · rw [piece_wise_prob_beyond (by linarith) hc2]
      split_ifs <;> linarith
  · -- c < r1 ≤ r2
    rw [piece_wise_prob_beyond ho1 hc1, piece_wise_prob_beyond (by linarith)
      (by linarith)]
    split_ifs <;> linarith

/-- For `0 < o` and `r < o` the piece-wise score lies in `[96, 99]`. -/
lemma piece_wise_prob_below_bounds {r o c : ℝ} (ho : 0 < o) (h : r < o) :
    96 ≤ piece_wise_prob r o c ∧ piece_wise_prob r o c ≤ 99 := by
  have himp : 0 ≤ (o - r) / o := div_nonneg (by linarith) (le_of_lt ho)
  unfold piece_wise_prob
  rw [if_pos h]
  split_ifs with h1
  · norm_num
  · push_neg at h1
    constructor <;> nlinarith

/-- For `0 < o` and `r1 ≤ r2 < o` the piece-wise score is non-increasing. -/
lemma piece_wise_prob_anti_below {r1 r2 o c : ℝ} (ho : 0 < o) (h12 : r1 ≤ r2)
    (h2 : r2 < o) : piece_wise_prob r2 o c ≤ piece_wise_prob r1 o c := by
  have h1 : r1 < o := by linarith
  have himp : (o - r2) / o ≤ (o - r1) / o :=
    div_le_div_of_nonneg_right (by linarith) (le_of_lt ho)
  unfold piece_wise_prob
  rw [if_pos h2, if_pos h1]
  split_ifs with hA hB hB
  · linarith
  · -- improvement of r2 saturated but not of r1: contradicts monotonicity
    exact absurd (le_trans hA himp) hB
  · -- r1 saturated, r2 not
    push_neg at hA
    nlinarith
  · nlinarith

/-! ### Spread facts -/

lemma spread_utils_of_lt {o c : ℝ} (h : o < c) :
    spread_utils o c = (c - o) / 10 := by
  unfold spread_utils
  rw [if_neg]
  intro hc
  have : c - o = 0 := by
    field_simp at hc
    linarith
  linarith

lemma spread_utils_pos {o c : ℝ} (h : o < c) : 0 < spread_utils o c := by
  rw [spread_utils_of_lt h]
  apply div_pos (by linarith) (by norm_num)

lemma spread_app_pos (o c : ℝ) : 0 < spread_app o c :=
  lt_of_lt_of_le one_pos (le_max_right _ _)

/-! ### Branch-evaluation lemmas for the two blends -/

lemma hybrid_raw_below_sat {r o c : ℝ} (h1 : r < o) (h2 : (o - r) / o > 0.5) :
    hybrid_raw r o c =
      max (logistic_prob r ((o + c) / 2) (spread_utils o c)) 95 := by
  unfold hybrid_raw
  rw [if_pos h1, if_pos h2]

lemma hybrid_raw_below_else {r o c : ℝ} (h1 : r < o)
    (h2 : ¬ (o - r) / o > 0.5) :
    hybrid_raw r o c =
      logistic_prob r ((o + c) / 2) (spread_utils o c) * 0.4
        + piece_wise_prob r o c * 0.6 := by
  unfold hybrid_raw
  rw [if_pos h1, if_neg h2]

lemma hybrid_raw_mid {r o c : ℝ} (h1 : ¬ r < o) (h2 : r ≤ c) :
    hybrid_raw r o c =
      logistic_prob r ((o + c) / 2) (spread_utils o c) * 0.7
        + piece_wise_prob r o c * 0.3 := by
  unfold hybrid_raw
  rw [if_neg h1, if_pos h2]

lemma hybrid_raw_far {r o c : ℝ} (h1 : ¬ r < o) (h2 : ¬ r ≤ c)
    (h3 : r > c + 100) : hybrid_raw r o c = 0 := by
  unfold hybrid_raw
  rw [if_neg h1, if_neg h2, if_pos h3]

lemma hybrid_raw_near {r o c : ℝ} (h1 : ¬ r < o) (h2 : ¬ r ≤ c)
    (h3 : ¬ r > c + 100) :
    hybrid_raw r o c =
      min (logistic_prob r ((o + c) / 2) (spread_utils o c)) 5 := by
  unfold hybrid_raw
  rw [if_neg h1, if_neg h2, if_neg h3]

lemma calc_raw_below_sat {r o c : ℝ} (h1 : r < o) (h2 : (o - r) / o > 0.5) :
    calculate_probability_raw r o c =
      max (logistic_prob r ((o + c) / 2) (spread_app o c)) 95 := by
  unfold calculate_probability_raw
  rw [if_pos h1, if_pos h2]

lemma calc_raw_below_else {r o c : ℝ} (h1 : r < o)
    (h2 : ¬ (o - r) / o > 0.5) :
    calculate_probability_raw r o c =
      logistic_prob r ((o + c) / 2) (spread_app o c) * 0.4
        + piece_wise_prob_app r o c * 0.6 := by
  unfold calculate_probability_raw
  rw [if_pos h1, if_neg h2]

lemma calc_raw_mid {r o c : ℝ} (h1 : ¬ r < o) (h2 : r ≤ c) :
    calculate_probability_raw r o c =
      logistic_prob r ((o + c) / 2) (spread_app o c) * 0.7
        + piece_wise_prob_app r o c * 0.3 := by
  unfold calculate_probability_raw
  rw [if_neg h1, if_pos h2]

lemma calc_raw_far {r o c : ℝ} (h1 : ¬ r < o) (h2 : ¬ r ≤ c)
    (h3 : r > c + 100) : calculate_probability_raw r o c = 0 := by
  unfold calculate_probability_raw
  rw [if_neg h1, if_neg h2, if_pos h3]

lemma calc_raw_near {r o c : ℝ} (h1 : ¬ r < o) (h2 : ¬ r ≤ c)
    (h3 : ¬ r > c + 100) :
    calculate_probability_raw r o c =
      min (logistic_prob r ((o + c) / 2) (spread_app o c)) 5 := by
  unfold calculate_probability_raw
  rw [if_neg h1, if_neg h2, if_neg h3]

/-! ### Facts about the un-normalized (`app.py`) window and piece-wise
score, mirroring those of the normalized variant -/

lemma window_score_app_anti {p1 p2 : ℝ} (h : p1 ≤ p2) :
    window_score_app p2 ≤ window_score_app p1 := by
  unfold window_score_app
  split_ifs <;> (ring_nf) <;> linarith

lemma window_score_app_le_94 {p : ℝ} (h : 0 ≤ p) : window_score_app p ≤ 94 := by
  have h1 : window_score_app p ≤ window_score_app 0 := window_score_app_anti h
  have h2 : window_score_app (0 : ℝ) = 94 := by norm_num [window_score_app]
  linarith

lemma window_score_app_ge_20 {p : ℝ} (h : p ≤ 1) : 20 ≤ window_score_app p := by
  have h1 : window_score_app 1 ≤ window_score_app p := window_score_app_anti h
  have h2 : window_score_app (1 : ℝ) = 20 := by norm_num [window_score_app]
  linarith

lemma piece_wise_prob_app_le_95 {r o c : ℝ} (h : o ≤ r) :
    piece_wise_prob_app r o c ≤ 95 := by
  unfold piece_wise_prob_app
  rw [if_neg (by linarith : ¬ r < o)]
  split_ifs with h1 h2 h3 h4
  · linarith
  · have hco : 0 < c - o := by
      rcases lt_or_eq_of_le h with h' | h'
      · linarith
      · exact absurd h'.symm h1
    have hp : 0 ≤ (r - o) / (c - o) := by
      apply div_nonneg (by linarith) (le_of_lt hco)
    linarith [window_score_app_le_94 hp]
  · linarith
  · linarith
  · linarith

lemma piece_wise_prob_app_nonneg_right {r o c : ℝ} (h : o ≤ r) :
    0 ≤ piece_wise_prob_app r o c := by
  unfold piece_wise_prob_app
  rw [if_neg (by linarith : ¬ r < o)]
  split_ifs with h1 h2 h3 h4
  · linarith
  · have hco : 0 < c - o := by
      rcases lt_or_eq_of_le h with h' | h'
      · linarith
      · exact absurd h'.symm h1
    have hp : (r - o) / (c - o) ≤ 1 := by
      rw [div_le_one hco]; linarith
    linarith [window_score_app_ge_20 hp]
  · linarith
  · linarith
  · linarith

lemma piece_wise_prob_app_below_bounds {r o c : ℝ} (ho : 0 < o) (h : r < o) :
    96 ≤ piece_wise_prob_app r o c ∧ piece_wise_prob_app r o c ≤ 99 := by
  have himp : 0 ≤ (o - r) / o := div_nonneg (by linarith) (le_of_lt ho)
  unfold piece_wise_prob_app
  rw [if_pos h]
  split_ifs with h1
  · norm_num
  · push_neg at h1
    constructor <;> nlinarith

/-! ### Range of the raw blend -/

lemma calc_raw_bounds {r o c : ℝ} (ho : 0 < o) :
    0 ≤ calculate_probability_raw r o c ∧
      calculate_probability_raw r o c ≤ 100 := by
  have hL0 := logistic_prob_pos r ((o + c) / 2) (spread_app o c)
  have hL1 := logistic_prob_lt_100 r ((o + c) / 2) (spread_app o c)
  by_cases h1 : r < o
  · by_cases h2 : (o - r) / o > 0.5
    · rw [calc_raw_below_sat h1 h2]
      constructor
      · exact le_trans (by norm_num) (le_max_right _ _)
      · exact max_le (le_of_lt hL1) (by norm_num)
    · rw [calc_raw_below_else h1 h2]
      obtain ⟨hp1, hp2⟩ := piece_wise_prob_app_below_bounds ho h1
      constructor <;> nlinarith
  · by_cases h2 : r ≤ c
    · rw [calc_raw_mid h1 h2]
      push_neg at h1
      have hp1 := @piece_wise_prob_app_nonneg_right r o c h1
      have hp2 := @piece_wise_prob_app_le_95 r o c h1
      constructor <;> nlinarith
    · by_cases h3 : r > c + 100
      · rw [calc_raw_far h1 h2 h3]
        norm_num
      · rw [calc_raw_near h1 h2 h3]
        constructor
        · exact le_min (le_of_lt hL0) (by norm_num)
        · exact le_trans (min_le_right _ _) (by norm_num)

lemma hybrid_raw_bounds {r o c : ℝ} (ho : 0 < o) :
    0 ≤ hybrid_raw r o c ∧ hybrid_raw r o c ≤ 100 := by
  have hL0 := logistic_prob_pos r ((o + c) / 2) (spread_utils o c)
  have hL1 := logistic_prob_lt_100 r ((o + c) / 2) (spread_utils o c)
  by_cases h1 : r < o
  · by_cases h2 : (o - r) / o > 0.5
    · rw [hybrid_raw_below_sat h1 h2]
      constructor
      · exact le_trans (by norm_num) (le_max_right _ _)
      · exact max_le (le_of_lt hL1) (by norm_num)
    · rw [hybrid_raw_below_else h1 h2]
      obtain ⟨hp1, hp2⟩ := piece_wise_prob_below_bounds ho h1
      constructor <;> nlinarith
  · by_cases h2 : r ≤ c
    · rw [hybrid_raw_mid h1 h2]
      push_neg at h1
      have hp1 := @piece_wise_prob_nonneg_right r o c h1
      have hp2 := @piece_wise_prob_le_95 r o c h1
      constructor <;> nlinarith
    · by_cases h3 : r > c + 100
      · rw [hybrid_raw_far h1 h2 h3]
        norm_num
      · rw [hybrid_raw_near h1 h2 h3]
        constructor
        · exact le_min (le_of_lt hL0) (by norm_num)
        · exact le_trans (min_le_right _ _) (by norm_num)

/-! ## Claim C1 -/

/-- C1, counterexample: the claim quantifies over every finite triple, but
at `(rank, openingRank, closingRank) = (-100, -1, -1)` both estimator
variants return a strictly negative value (about `-258.8`), outside
`[0, 100]`. -/
theorem estimate_negative_on_negative_opening :
    hybrid_probability_calculation (-100) (-1) (-1) < 0 ∧
      calculate_probability (-100) (-1) (-1) < 0 := by
  constructor
  · apply round2_neg_of_le
    rw [hybrid_raw_below_else (by norm_num) (by norm_num)]
    rw [show piece_wise_prob (-100 : ℝ) (-1) (-1) = -498 by
      norm_num [piece_wise_prob]]
    have h := logistic_prob_lt_100 (-100 : ℝ) ((-1 + -1) / 2)
      (spread_utils (-1) (-1))
    nlinarith
  · apply round2_neg_of_le
    rw [calc_raw_below_else (by norm_num) (by norm_num)]
    rw [show piece_wise_prob_app (-100 : ℝ) (-1) (-1) = -498 by
      norm_num [piece_wise_prob_app]]
    have h := logistic_prob_lt_100 (-100 : ℝ) ((-1 + -1) / 2)
      (spread_app (-1) (-1))
    nlinarith

/-- C1 (amended): for every finite triple whose opening rank is positive —
including every degenerate triple with `closingRank ≤ openingRank` — both
estimator variants are total and return a value in `[0, 100]`.  (In the
real-number model no computation fault can occur; the `except` fallback to
`0.0` of the source is unreachable.) -/
theorem estimate_in_range_of_pos_opening (r o c : ℝ) (ho : 0 < o) :
    (0 ≤ hybrid_probability_calculation r o c ∧
        hybrid_probability_calculation r o c ≤ 100) ∧
      (0 ≤ calculate_probability r o c ∧
        calculate_probability r o c ≤ 100) := by
  obtain ⟨h1, h2⟩ := @hybrid_raw_bounds r o c ho
  obtain ⟨h3, h4⟩ := @calc_raw_bounds r o c ho
  exact ⟨⟨round2_nonneg h1, round2_le_100 h2⟩,
    ⟨round2_nonneg h3, round2_le_100 h4⟩⟩

/-- Witness for C1 at the degenerate triple `(50, 100, 90)`
(`closingRank < openingRank`). -/
theorem estimate_in_range_witness :
    (0 : ℝ) < 100 ∧
      (0 ≤ hybrid_probability_calculation 50 100 90 ∧
        hybrid_probability_calculation 50 100 90 ≤ 100) ∧
      (0 ≤ calculate_probability 50 100 90 ∧
        calculate_probability 50 100 90 ≤ 100) :=
  ⟨by norm_num, estimate_in_range_of_pos_opening 50 100 90 (by norm_num)⟩

/-- Polymorphic version of the window-branch selection. -/
lemma piece_wise_prob_window_poly {α : Type} [LinearOrderedField α]
    {r o c : α} (h1 : o < r) (h2 : r < c) :
    piece_wise_prob r o c = window_score ((r - o) / (c - o)) := by
  unfold piece_wise_prob
  rw [if_neg (by linarith : ¬ r < o), if_neg (by linarith : r ≠ o), if_pos h2]

/-! ## Claim C2 -/

/-- C2, counterexample: at `(rank, openingRank, closingRank) =
(130, 100, 200)` (`position = 0.3`), the normalized band formula claimed
for the estimator gives `220/3 ≈ 73.33` — which is what
`hybrid_probability_calculation`'s piece-wise score computes — but
`app.py`'s `calculate_probability` computes the un-normalized
`80 - 0.3*20 = 74`, so the claim is false of the `app.py` sources it
cites. -/
theorem mid_band_normalization_differs :
    piece_wise_prob (130 : ℚ) 100 200 = 220 / 3 ∧
      piece_wise_prob_app (130 : ℚ) 100 200 = 74 ∧
      piece_wise_prob_app (130 : ℚ) 100 200 ≠
        80 - (((130 : ℚ) - 100) / (200 - 100) - 0.2) / 0.3 * 20 := by
  refine ⟨?_, ?_, ?_⟩
  · norm_num [piece_wise_prob, window_score]
  · norm_num [piece_wise_prob_app, window_score_app]
  · norm_num [piece_wise_prob_app, window_score_app]

/-- C2 (amended): the normalized band formulas hold of the canonical
estimator `hybrid_probability_calculation` (`app/utils.py`,
`app/main.py`); `app.py`'s `calculate_probability` instead uses the
un-normalized `80 - position*20`, `60 - position*20`, `40 - position*20`.
Stated for the piece-wise sub-score on the three upper position bands. -/
theorem hybrid_mid_bands_normalized {α : Type} [LinearOrderedField α]
    (r o c : α) (h1 : o < r) (h2 : r < c) :
    (0.2 < (r - o) / (c - o) → (r - o) / (c - o) ≤ 0.5 →
      piece_wise_prob r o c = 80 - ((r - o) / (c - o) - 0.2) / 0.3 * 20) ∧
    (0.5 < (r - o) / (c - o) → (r - o) / (c - o) ≤ 0.8 →
      piece_wise_prob r o c = 60 - ((r - o) / (c - o) - 0.5) / 0.3 * 20) ∧
    (0.8 < (r - o) / (c - o) → (r - o) / (c - o) < 1 →
      piece_wise_prob r o c = 40 - ((r - o) / (c - o) - 0.8) / 0.2 * 20) := by
  rw [piece_wise_prob_window_poly h1 h2]
  unfold window_score
  refine ⟨fun ha hb => ?_, fun ha hb => ?_, fun ha hb => ?_⟩
  · rw [if_neg (by linarith), if_pos hb]
  · rw [if_neg (by linarith), if_neg (by linarith), if_pos hb]
  · rw [if_neg (by linarith), if_neg (by linarith), if_neg (by linarith)]

/-- Witness for C2 at `(130, 100, 200)` in the `(0.2, 0.5]` band. -/
theorem hybrid_mid_bands_normalized_witness :
    (100 : ℚ) < 130 ∧ (130 : ℚ) < 200 ∧
      (0.2 : ℚ) < ((130 : ℚ) - 100) / (200 - 100) ∧
      ((130 : ℚ) - 100) / (200 - 100) ≤ 0.5 ∧
      piece_wise_prob (130 : ℚ) 100 200 =
        80 - (((130 : ℚ) - 100) / (200 - 100) - 0.2) / 0.3 * 20 :=
  ⟨by norm_num, by norm_num, by norm_num, by norm_num,
    (hybrid_mid_bands_normalized (130 : ℚ) 100 200 (by norm_num)
      (by norm_num)).1 (by norm_num) (by norm_num)⟩

/-! ## Claim C3 -/

/-- C3, counterexample: in `app/utils.py`/`app/main.py` the spread term is
NOT `max((closing-opening)/10, 1)`: at `(openingRank, closingRank) =
(0, 5)` it is `1/2 < 1`, and at `(5, 0)` (reversed window) it is `-1/2`. -/
theorem spread_not_clamped_in_utils :
    spread_utils (0 : ℚ) 5 = 1 / 2 ∧
      spread_utils (0 : ℚ) 5 ≠ max ((5 - 0) / 10) 1 ∧
      spread_utils (5 : ℚ) 0 = -(1 / 2) := by
  have hmax : max (((5 : ℚ) - 0) / 10) 1 = 1 := max_eq_right (by norm_num)
  refine ⟨by norm_num [spread_utils], ?_, by norm_num [spread_utils]⟩
  rw [hmax]
  norm_num [spread_utils]

/-- C3 (amended): `app.py`'s `calculate_probability` does use
`S = max((closingRank - openingRank)/10, 1)`, so its spread is never below
`1` — including for `0 < closingRank - openingRank < 10` and for reversed
windows; the `app/utils.py`/`app/main.py` variant replaces `S` by `1` only
when it is exactly `0`, so its spread can be smaller than `1` or negative
(counterexample above). -/
theorem spread_app_clamped {α : Type} [LinearOrderedField α] (o c : α) :
    1 ≤ spread_app o c ∧
      ((c - o) / 10 ≤ 1 → spread_app o c = 1) ∧
      (1 ≤ (c - o) / 10 → spread_app o c = (c - o) / 10) :=
  ⟨le_max_right _ _, fun h => max_eq_right h, fun h => max_eq_left h⟩

/-- Witness for C3 at the narrow window `(0, 5)`. -/
theorem spread_app_clamped_witness :
    1 ≤ spread_app (0 : ℚ) 5 ∧ ((5 : ℚ) - 0) / 10 ≤ 1 ∧
      spread_app (0 : ℚ) 5 = 1 :=
  ⟨(spread_app_clamped (0 : ℚ) 5).1, by norm_num,
    (spread_app_clamped (0 : ℚ) 5).2.1 (by norm_num)⟩

/-! ## Claim C9 -/

/-- C9 (confirmed): the interpretation labeling is a pure total lookup with
boundaries inclusive on the lower bound: `95 ↦ Very High`,
`94.99 ↦ High`, `80 ↦ High`, `0.01 ↦ Very Low`, `0 ↦ No Chance`. -/
theorem interpretation_boundaries :
    get_probability_interpretation (95 : ℚ) = "Very High Chance" ∧
      get_probability_interpretation (94.99 : ℚ) = "High Chance" ∧
      get_probability_interpretation (80 : ℚ) = "High Chance" ∧
      get_probability_interpretation (0.01 : ℚ) = "Very Low Chance" ∧
      get_probability_interpretation (0 : ℚ) = "No Chance" := by
  refine ⟨?_, ?_, ?_, ?_, ?_⟩ <;> norm_num [get_probability_interpretation]

/-! ## Claim C4 -/

/-- Below the opening rank the logistic exponent is at most `-5` (the
exponent is exactly `-5` at `rank = openingRank`). -/
lemma exponent_le_neg_five {r o c : ℝ} (hoc : o < c) (h : r ≤ o) :
    (r - (o + c) / 2) / spread_utils o c ≤ -5 := by
  rw [spread_utils_of_lt hoc, div_le_iff (by apply div_pos <;> linarith)]
  ring_nf
  linarith

/-- Monotonicity of the raw blend on each side of the opening rank. -/
lemma hybrid_raw_anti_same_side {r1 r2 o c : ℝ} (ho : 0 < o) (hoc : o < c)
    (h12 : r1 ≤ r2) (hside : r2 < o ∨ o ≤ r1) :
    hybrid_raw r2 o c ≤ hybrid_raw r1 o c := by
  have hS := spread_utils_pos hoc
  have hLanti : logistic_prob r2 ((o + c) / 2) (spread_utils o c) ≤
      logistic_prob r1 ((o + c) / 2) (spread_utils o c) :=
    logistic_prob_anti hS h12
  have hL1pos := logistic_prob_pos r1 ((o + c) / 2) (spread_utils o c)
  have hL2pos := logistic_prob_pos r2 ((o + c) / 2) (spread_utils o c)
  rcases hside with hr2o | hor1
  · -- both ranks strictly below the opening rank
    have h1 : r1 < o := lt_of_le_of_lt h12 hr2o
    have himp : (o - r2) / o ≤ (o - r1) / o :=
      div_le_div_of_nonneg_right (by linarith) (le_of_lt ho)
    by_cases hs1 : (o - r1) / o > 0.5
    · by_cases hs2 : (o - r2) / o > 0.5
      · rw [hybrid_raw_below_sat h1 hs1, hybrid_raw_below_sat hr2o hs2]
        exact max_le_max hLanti (le_refl _)
      · rw [hybrid_raw_below_sat h1 hs1, hybrid_raw_below_else hr2o hs2]
        have hL199 : (99 : ℝ) ≤
            logistic_prob r1 ((o + c) / 2) (spread_utils o c) :=
          logistic_prob_ge_99 (exponent_le_neg_five hoc (le_of_lt h1))
        rw [max_eq_left (by linarith)]
        have hP2 := (@piece_wise_prob_below_bounds r2 o c ho hr2o).2
        linarith
    · have hs2 : ¬ (o - r2) / o > 0.5 := by
        push_neg at hs1 ⊢; linarith
      rw [hybrid_raw_below_else h1 hs1, hybrid_raw_below_else hr2o hs2]
      have hPanti := @piece_wise_prob_anti_below r1 r2 o c ho h12 hr2o
      linarith
  · -- both ranks at or beyond the opening rank
    have h1n : ¬ r1 < o := not_lt.2 hor1
    have h2n : ¬ r2 < o := not_lt.2 (le_trans hor1 h12)
    by_cases hc1 : r1 ≤ c
    · rw [hybrid_raw_mid h1n hc1]
      have hP1ge := piece_wise_prob_ge_15 hor1 hc1
      by_cases hc2 : r2 ≤ c
      · rw [hybrid_raw_mid h2n hc2]
        have hPanti := @piece_wise_prob_anti_right r1 r2 o c hor1 h12
        linarith
      · by_cases hf : r2 > c + 100
        · rw [hybrid_raw_far h2n hc2 hf]
          linarith
        · rw [hybrid_raw_near h2n hc2 hf]
          rcases min_cases (logistic_prob r2 ((o + c) / 2) (spread_utils o c))
            (5 : ℝ) with ⟨hmin, hle⟩ | ⟨hmin, hlt⟩ <;> rw [hmin] <;> linarith
    · push_neg at hc1
      have hc2 : ¬ r2 ≤ c := by push_neg; linarith
      by_cases hf1 : r1 > c + 100
      · rw [hybrid_raw_far h1n (not_le.2 hc1) hf1,
          hybrid_raw_far h2n hc2 (by linarith)]
      · rw [hybrid_raw_near h1n (not_le.2 hc1) hf1]
        by_cases hf2 : r2 > c + 100
        · rw [hybrid_raw_far h2n hc2 hf2]
          exact le_min (le_of_lt hL1pos) (by norm_num)
        · rw [hybrid_raw_near h2n hc2 hf2]
          exact min_le_min hLanti (le_refl _)

lemma exp_five_ub : Real.exp 5 ≤ 148.4132 := by
  have h1 : Real.exp ((5 : ℕ) * 1) = Real.exp 1 ^ 5 := Real.exp_nat_mul 1 5
  have h2 : Real.exp 1 ^ 5 ≤ (2.7182818286 : ℝ) ^ 5 :=
    pow_le_pow_left (le_of_lt (Real.exp_pos 1))
      (le_of_lt Real.exp_one_lt_d9) 5
  have h3 : ((2.7182818286 : ℝ)) ^ 5 ≤ 148.4132 := by norm_num
  calc Real.exp 5 = Real.exp ((5 : ℕ) * 1) := by norm_num
    _ = Real.exp 1 ^ 5 := h1
    _ ≤ (2.7182818286 : ℝ) ^ 5 := h2
    _ ≤ 148.4132 := h3

lemma exp_five_lb : (148.413 : ℝ) ≤ Real.exp 5 := by
  have h1 : Real.exp ((5 : ℕ) * 1) = Real.exp 1 ^ 5 := Real.exp_nat_mul 1 5
  have h2 : (2.7182818283 : ℝ) ^ 5 ≤ Real.exp 1 ^ 5 :=
    pow_le_pow_left (by norm_num) (le_of_lt Real.exp_one_gt_d9) 5
  have h3 : (148.413 : ℝ) ≤ (2.7182818283 : ℝ) ^ 5 := by norm_num
  calc (148.413 : ℝ) ≤ (2.7182818283 : ℝ) ^ 5 := h3
    _ ≤ Real.exp 1 ^ 5 := h2
    _ = Real.exp ((5 : ℕ) * 1) := h1.symm
    _ = Real.exp 5 := by norm_num

lemma exp_tenth_ub : Real.exp (1 / 10) ≤ 400 / 361 := by
  have h1 : (19 / 20 : ℝ) ≤ Real.exp (-(1 / 20)) := by
    have := Real.add_one_le_exp (-(1 / 20) : ℝ)
    linarith
  have h2 : Real.exp (1 / 20) ≤ 20 / 19 := by
    have hinv : Real.exp (-(1 / 20)) = (Real.exp (1 / 20))⁻¹ :=
      Real.exp_neg (1 / 20)
    rw [hinv] at h1
    have hpos := Real.exp_pos (1 / 20 : ℝ)
    rw [le_inv_comm₀ (by norm_num) hpos] at h1
    calc Real.exp (1 / 20) ≤ (19 / 20 : ℝ)⁻¹ := h1
      _ = 20 / 19 := by norm_num
  have h3 : Real.exp (1 / 10 : ℝ) = Real.exp (1 / 20) * Real.exp (1 / 20) := by
    rw [← Real.exp_add]; norm_num
  rw [h3]
  have hpos := Real.exp_pos (1 / 20 : ℝ)
  calc Real.exp (1 / 20) * Real.exp (1 / 20) ≤ (20 / 19) * (20 / 19) := by
        apply mul_le_mul h2 h2 (le_of_lt hpos) (by norm_num)
    _ = 400 / 361 := by norm_num

lemma exp_51_tenths_ub : Real.exp (51 / 10) ≤ 164.447 := by
  have h1 : Real.exp (51 / 10 : ℝ) = Real.exp 5 * Real.exp (1 / 10) := by
    rw [← Real.exp_add]; norm_num
  rw [h1]
  have hpos := Real.exp_pos (1 / 10 : ℝ)
  calc Real.exp 5 * Real.exp (1 / 10) ≤ 148.4132 * (400 / 361) := by
        apply mul_le_mul exp_five_ub exp_tenth_ub (le_of_lt hpos) (by norm_num)
    _ ≤ 164.447 := by norm_num

lemma exp_49_tenths_lb : (133.94 : ℝ) ≤ Real.exp (49 / 10) := by
  have h1 : Real.exp (49 / 10 : ℝ) = Real.exp 5 * Real.exp (-(1 / 10)) := by
    rw [← Real.exp_add]; norm_num
  have h2 : (361 / 400 : ℝ) ≤ Real.exp (-(1 / 10)) := by
    rw [Real.exp_neg]
    have hpos := Real.exp_pos (1 / 10 : ℝ)
    calc (361 / 400 : ℝ) = (400 / 361 : ℝ)⁻¹ := by norm_num
      _ ≤ (Real.exp (1 / 10))⁻¹ := inv_le_inv_of_le hpos exp_tenth_ub
  rw [h1]
  calc (133.94 : ℝ) ≤ 148.413 * (361 / 400) := by norm_num
    _ ≤ Real.exp 5 * Real.exp (-(1 / 10)) := by
        apply mul_le_mul exp_five_lb h2 (by norm_num)
          (le_trans (by norm_num) exp_five_lb)

lemma logistic_99_ub : logistic_prob 99 ((100 + 200) / 2) 10 ≤ 99.3958 := by
  rw [logistic_prob_eq]
  rw [show ((99 : ℝ) - (100 + 200) / 2) / 10 = -(51 / 10) by norm_num]
  have hE : (164.447 : ℝ)⁻¹ ≤ Real.exp (-(51 / 10)) := by
    rw [Real.exp_neg]
    exact inv_le_inv_of_le (Real.exp_pos _) exp_51_tenths_ub
  have hE0 := Real.exp_pos (-(51 / 10) : ℝ)
  have hpos : (0 : ℝ) < 1 + Real.exp (-(51 / 10)) := by linarith
  rw [div_le_iff hpos]
  nlinarith

lemma logistic_101_lb : (99.243 : ℝ) ≤ logistic_prob 101 ((100 + 200) / 2) 10 := by
  rw [logistic_prob_eq]
  rw [show ((101 : ℝ) - (100 + 200) / 2) / 10 = -(49 / 10) by norm_num]
  have hE : Real.exp (-(49 / 10)) ≤ (133.94 : ℝ)⁻¹ := by
    rw [Real.exp_neg]
    exact inv_le_inv_of_le (by norm_num) exp_49_tenths_lb
  have hE0 := Real.exp_pos (-(49 / 10) : ℝ)
  have hpos : (0 : ℝ) < 1 + Real.exp (-(49 / 10)) := by linarith
  rw [le_div_iff hpos]
  nlinarith

/-- C4, counterexample: with the window `(100, 200)` fixed, the estimator
is NOT non-increasing away from the two documented exception points:
`estimate(99, 100, 200) ≈ 97.39` is strictly below
`estimate(101, 100, 200) ≈ 97.47`, although `99 < 101` and neither rank
equals the opening or the closing rank.  (Crossing the opening boundary
the blend weights jump from `0.4/0.6` to `0.7/0.3`, which outweighs the
drop in the piece-wise score.) -/
theorem estimate_not_antitone_across_opening :
    hybrid_probability_calculation 99 100 200 <
      hybrid_probability_calculation 101 100 200 := by
  have hs : spread_utils (100 : ℝ) 200 = 10 := by norm_num [spread_utils]
  have hraw1 : hybrid_raw 99 100 200 ≤ 97.395 := by
    rw [hybrid_raw_below_else (by norm_num) (by norm_num), hs]
    rw [show piece_wise_prob (99 : ℝ) 100 200 = 96.06 by
      norm_num [piece_wise_prob]]
    have h := logistic_99_ub
    linarith
  have hraw2 : (97.46 : ℝ) ≤ hybrid_raw 101 100 200 := by
    rw [hybrid_raw_mid (by norm_num) (by norm_num), hs]
    rw [show piece_wise_prob (101 : ℝ) 100 200 = 93.3 by
      norm_num [piece_wise_prob, window_score]]
    have h := logistic_101_lb
    linarith
  have e1 : round2 (97.395 : ℝ) = 97.4 := by
    rw [round2_eq_div (97.395 : ℝ) 9740 (by norm_num) (by norm_num)]
    norm_num
  have e2 : round2 (97.46 : ℝ) = 97.46 := by
    rw [round2_eq_div (97.46 : ℝ) 9746 (by norm_num) (by norm_num)]
    norm_num
  unfold hybrid_probability_calculation
  calc round2 (hybrid_raw 99 100 200) ≤ round2 (97.395 : ℝ) :=
        round2_mono hraw1
    _ = 97.4 := e1
    _ < 97.46 := by norm_num
    _ = round2 (97.46 : ℝ) := e2.symm
    _ ≤ round2 (hybrid_raw 101 100 200) := round2_mono hraw2

/-- C4 (amended): holding `0 < openingRank < closingRank` fixed, the
canonical estimator is non-increasing in `rank` separately on each side of
the opening rank — for every `r1 ≤ r2` that are both below, or both at or
above, the opening rank; it is not non-increasing across the opening
boundary (counterexample above). -/
theorem estimate_antitone_on_each_side (o c r1 r2 : ℝ) (ho : 0 < o)
    (hoc : o < c) (h12 : r1 ≤ r2) (hside : r2 < o ∨ o ≤ r1) :
    hybrid_probability_calculation r2 o c ≤
      hybrid_probability_calculation r1 o c :=
  round2_mono (hybrid_raw_anti_same_side ho hoc h12 hside)

/-- Witness for C4 at `(o, c) = (100, 200)`, `r1 = 110 ≤ r2 = 120`. -/
theorem estimate_antitone_witness :
    (0 : ℝ) < 100 ∧ (100 : ℝ) < 200 ∧ (110 : ℝ) ≤ 120 ∧ (100 : ℝ) ≤ 110 ∧
      hybrid_probability_calculation 120 100 200 ≤
        hybrid_probability_calculation 110 100 200 :=
  ⟨by norm_num, by norm_num, by norm_num, by norm_num,
    estimate_antitone_on_each_side 100 200 110 120 (by norm_num)
      (by norm_num) (by norm_num) (Or.inr (by norm_num))⟩

/-! ## Claim C8 -/

lemma logistic_concrete_50 :
    (99.99 : ℝ) ≤ logistic_prob 50 ((100 + 200) / 2) 10 ∧
      logistic_prob 50 ((100 + 200) / 2) 10 < 100 := by
  rw [logistic_prob_eq]
  have harg : ((50 : ℝ) - (100 + 200) / 2) / 10 = -10 := by norm_num
  rw [harg]
  have hE0 : 0 < Real.exp (-10) := Real.exp_pos _
  have hE1 : Real.exp (-10) ≤ 1 / 10000 := by
    rw [Real.exp_neg]
    calc (Real.exp 10)⁻¹ ≤ ((10000 : ℝ))⁻¹ :=
          inv_le_inv_of_le (by norm_num) exp_ten_ge
      _ = 1 / 10000 := by norm_num
  have hpos : 0 < 1 + Real.exp (-10) := by linarith
  constructor
  · rw [le_div_iff hpos]; nlinarith
  · rw [div_lt_iff hpos]; nlinarith

lemma round2_blend_concrete {L : ℝ} (hlo : (99.99 : ℝ) ≤ L) (hhi : L < 100) :
    round2 (L * 0.4 + 99 * 0.6) = 99.4 := by
  have h := round2_eq_div (L * 0.4 + 99 * 0.6) 9940 (by push_cast; nlinarith)
    (by push_cast; nlinarith)
  rw [h]; norm_num

lemma hybrid_50_100_200 : hybrid_probability_calculation 50 100 200 = 99.4 := by
  obtain ⟨hlo, hhi⟩ := logistic_concrete_50
  unfold hybrid_probability_calculation
  rw [hybrid_raw_below_else (by norm_num) (by norm_num)]
  rw [show spread_utils (100 : ℝ) 200 = 10 by norm_num [spread_utils]]
  rw [show piece_wise_prob (50 : ℝ) 100 200 = 99 by
    norm_num [piece_wise_prob]]
  exact round2_blend_concrete hlo hhi

lemma calc_50_100_200 : calculate_probability 50 100 200 = 99.4 := by
  obtain ⟨hlo, hhi⟩ := logistic_concrete_50
  unfold calculate_probability
  rw [calc_raw_below_else (by norm_num) (by norm_num)]
  rw [show spread_app (100 : ℝ) 200 = 10 by
    unfold spread_app
    rw [max_eq_left (by norm_num)]
    norm_num]
  rw [show piece_wise_prob_app (50 : ℝ) 100 200 = 99 by
    norm_num [piece_wise_prob_app]]
  exact round2_blend_concrete hlo hhi

/-- C8 (confirmed): at `estimate(50, 100, 200)` the improvement is exactly
`0.5`, which is not `> 0.5`, the piece-wise score saturates at `99.0`
(`improvement ≥ 0.5`), the blend is `0.4*logistic + 0.6*99`, and the
rounded result is exactly `99.4` — for both estimator variants. -/
theorem estimate_concrete_50_100_200 :
    ((100 : ℚ) - 50) / 100 = 0.5 ∧ ¬ ((100 : ℚ) - 50) / 100 > 0.5 ∧
      piece_wise_prob (50 : ℚ) 100 200 = 99 ∧
      hybrid_probability_calculation 50 100 200 = 99.4 ∧
      calculate_probability 50 100 200 = 99.4 :=
  ⟨by norm_num, by norm_num, by norm_num [piece_wise_prob],
    hybrid_50_100_200, calc_50_100_200⟩


/-! ## The preference pipeline

The pipeline operates on an in-memory table of historical cutoff records.
Data ingestion (CSV/HTTP loading, numeric coercion, sentinel filling) is an
external collaborator per the specification; the embedding takes the loaded
record list as input, with ranks as exact rationals.  A failed load
(`load_data` returning `None`) corresponds to not invoking the embedded
pipeline at all.
-/

/-- Python's `str.lower()` (ASCII), modelled by mapping `Char.toLower`
over the characters (semantically `String.toLower`, stated in a
kernel-reducible form). -/
def toLowerStr (s : String) : String := ⟨s.data.map Char.toLower⟩

/-- Python's `str.upper()` (ASCII). -/
def toUpperStr (s : String) : String := ⟨s.data.map Char.toUpper⟩

/-- One historical cutoff record (one row of the loaded dataframe). -/
structure Record where
  institute : String
  program : String
  college_type : String
  location : String
  category : String
  round : String
  opening_rank : ℚ
  closing_rank : ℚ
  deriving DecidableEq

/-- The in-place case normalization applied to the dataframe columns before
filtering: `Category` and `Academic Program Name` lowercased, `College
Type` uppercased (`app/utils.py` lines 157-159, `app/main.py` lines
134-136, `app.py` lines 112-114). -/
def normalize_record (r : Record) : Record :=
  { r with
    category := toLowerStr r.category
    program := toLowerStr r.program
    college_type := toUpperStr r.college_type }

/-- `validate_inputs` of `app/utils.py` (lines 32-45).  A missing or zero
rank (falsy in Python) is subsumed by `jee_rank ≤ 0`. -/
def validate_inputs (jee_rank : ℚ)
    (category college_type preferred_branch round_no : String) :
    Bool × String :=
  if jee_rank ≤ 0 then
    (false, "Please enter a valid "
      ++ (if college_type == "IIT" then "JEE Advanced" else "JEE Main")
      ++ " rank (greater than 0)")
  else if category == "" then (false, "Please select a category")
  else if college_type == "" then (false, "Please select a college type")
  else if preferred_branch == "" then (false, "Please select a branch")
  else if round_no == "" then (false, "Please select a round")
  else (true, "")

/-- The filter stage shared by all three pipeline variants: normalize the
dataset and the query values, then filter by category, college type,
program (each unless the query says `all`) and round (always). -/
def filter_records (records : List Record)
    (category college_type preferred_branch : String) (round_no : String) :
    List Record :=
  let df0 := records.map normalize_record
  let df1 := if toLowerStr category ≠ "all" then
      df0.filter (fun r => r.category == toLowerStr category) else df0
  let df2 := if toUpperStr college_type ≠ "ALL" then
      df1.filter (fun r => r.college_type == toUpperStr college_type) else df1
  let df3 := if toLowerStr preferred_branch ≠ "all" then
      df2.filter (fun r => r.program == toLowerStr preferred_branch) else df2
  df3.filter (fun r => r.round == round_no)

/-- `pandas.DataFrame.drop_duplicates` (keep `first`) on the concatenated
band selections: keep the first occurrence of every row value.  (Stated
with the recursive call on the tail before removing the head's duplicates,
which is the same keep-first result and is structurally recursive.) -/
def dedupFirst : List Record → List Record
  | [] => []
  | x :: xs => x :: (dedupFirst xs).filter (fun y => decide (y ≠ x))

/-- The windowed selection of `app/utils.py` (lines 178-194) and
`app/main.py` (lines 153-168): three overlapping bands around the
candidate rank, capped at 10/20/20 rows, concatenated and de-duplicated. -/
def windowed_selection (jee_rank : ℚ) (df : List Record) : List Record :=
  let top_10 := (df.filter (fun r =>
    decide (jee_rank - 200 ≤ r.opening_rank) &&
      decide (r.opening_rank ≤ jee_rank))).take 10
  let next_20 := (df.filter (fun r =>
    decide (r.opening_rank ≤ jee_rank) &&
      decide (jee_rank ≤ r.closing_rank))).take 20
  let last_20 := (df.filter (fun r =>
    decide (jee_rank ≤ r.closing_rank) &&
      decide (r.closing_rank ≤ jee_rank + 200))).take 20
  dedupFirst (top_10 ++ next_20 ++ last_20)

/-- A record with its computed `Admission Probability (%)` and
`Admission Chances` columns. -/
structure ScoredRecord where
  record : Record
  prob : ℝ
  chances : String

/-- Scoring one row with the canonical estimator
(`app/utils.py` lines 197-202). -/
noncomputable def score_record (jee_rank : ℚ) (r : Record) : ScoredRecord :=
  { record := r
    prob := hybrid_probability_calculation (jee_rank : ℝ)
      (r.opening_rank : ℝ) (r.closing_rank : ℝ)
    chances := get_probability_interpretation
      (hybrid_probability_calculation (jee_rank : ℝ)
        (r.opening_rank : ℝ) (r.closing_rank : ℝ)) }

/-- Scoring one row with `app.py`'s estimator (`app.py` lines 125-130). -/
noncomputable def app_score_record (jee_rank : ℚ) (r : Record) :
    ScoredRecord :=
  { record := r
    prob := calculate_probability (jee_rank : ℝ)
      (r.opening_rank : ℝ) (r.closing_rank : ℝ)
    chances := get_probability_interpretation
      (calculate_probability (jee_rank : ℝ)
        (r.opening_rank : ℝ) (r.closing_rank : ℝ)) }

/-- One row of the returned result table, carrying exactly the selected and
renamed output columns. -/
structure OutputRow where
  preference : ℕ
  institute : String
  college_type : String
  location : String
  branch : String
  opening_rank : ℚ
  closing_rank : ℚ
  probability : ℝ
  chances : String

/-- The output column names of the returned result table
(`app/utils.py` lines 209-223, `app/main.py` lines 181-194, `app.py`
lines 146-156, after the rename of `Preference_Order`/`Academic Program
Name`). -/
def result_columns : List String :=
  ["Preference", "Institute", "College Type", "Location", "Branch",
   "Opening Rank", "Closing Rank", "Admission Probability (%)",
   "Admission Chances"]

def mkRow (n : ℕ) (s : ScoredRecord) : OutputRow :=
  { preference := n
    institute := s.record.institute
    college_type := s.record.college_type
    location := s.record.location
    branch := s.record.program
    opening_rank := s.record.opening_rank
    closing_rank := s.record.closing_rank
    probability := s.prob
    chances := s.chances }

/-- `final_list['Preference_Order'] = range(1, len(final_list) + 1)`:
assign preference numbers `n, n+1, ...` down the sorted list. -/
def assignPrefs : ℕ → List ScoredRecord → List OutputRow
  | _, [] => []
  | n, s :: rest => mkRow n s :: assignPrefs (n + 1) rest

noncomputable instance : DecidableRel (fun a b : ScoredRecord => a.prob ≤ b.prob) :=
  fun a b => Real.decidableLE a.prob b.prob

/-- `df.sort_values('Admission Probability (%)', ascending=False)`.
pandas computes a descending sort as the REVERSE of the indexer of an
ascending `argsort` (`pandas.core.sorting.nargsort`); numpy's default sort
is stable on the short arrays involved here (introsort falls back to
insertion sort below 16 elements), so the model is a stable ascending
insertion sort followed by a reversal.  In particular rows with equal
probabilities come out in reversed original order. -/
noncomputable def sort_by_probability (l : List ScoredRecord) :
    List ScoredRecord :=
  (List.insertionSort (fun a b => a.prob ≤ b.prob) l).reverse

/-- The three observable result shapes of the pipeline: an error table
(column `Error`), an informational message table (column `Message`), or an
ordinary result table. -/
inductive PipelineResult where
  | error (msg : String)
  | message (msg : String)
  | ok (rows : List OutputRow)

/-- `predict_preferences` of `app/main.py` (lines 128-210): filter,
distinguished empty result, windowed selection, scoring, threshold,
descending sort, preference numbering — with NO input validation.  (The
source wraps the steps after the empty check in `try/except`; in the
real-number model no step can raise, so the except-branch is
unreachable.) -/
noncomputable def predict_preferences (jee_rank : ℚ)
    (category college_type preferred_branch round_no : String)
    (min_probability : ℝ) (records : List Record) : PipelineResult :=
  if (filter_records records category college_type preferred_branch
      round_no).isEmpty then
    PipelineResult.message "No colleges found matching your criteria"
  else
    PipelineResult.ok (assignPrefs 1 (sort_by_probability
      (((windowed_selection jee_rank
            (filter_records records category college_type preferred_branch
              round_no)).map
          (score_record jee_rank)).filter
        (fun s => decide (min_probability ≤ s.prob)))))

/-- `generate_preference_list` of `app/utils.py` (lines 144-228): validate
the inputs, then perform exactly the steps of `predict_preferences`. -/
noncomputable def generate_preference_list (jee_rank : ℚ)
    (category college_type preferred_branch round_no : String)
    (min_probability : ℝ) (records : List Record) : PipelineResult :=
  if (validate_inputs jee_rank category college_type preferred_branch
      round_no).1 = false then
    PipelineResult.error
      (validate_inputs jee_rank category college_type preferred_branch
        round_no).2
  else
    predict_preferences jee_rank category college_type preferred_branch
      round_no min_probability records

/-- `generate_preference_list` of `app.py` (lines 104-162): the full-scan
variant — same filters, but NO validation, NO distinguished empty result
and NO windowed selection; every filtered record is scored with
`calculate_probability`. -/
noncomputable def app_generate_preference_list (jee_rank : ℚ)
    (category college_type preferred_branch round_no : String)
    (min_probability : ℝ) (records : List Record) : PipelineResult :=
  PipelineResult.ok (assignPrefs 1 (sort_by_probability
    (((filter_records records category college_type preferred_branch
          round_no).map
        (app_score_record jee_rank)).filter
      (fun s => decide (min_probability ≤ s.prob)))))

/-! ### Structural lemmas about the pipeline stages -/

instance : IsTotal ScoredRecord (fun a b => a.prob ≤ b.prob) :=
  ⟨fun a b => le_total a.prob b.prob⟩

instance : IsTrans ScoredRecord (fun a b => a.prob ≤ b.prob) :=
  ⟨fun _ _ _ h1 h2 => le_trans h1 h2⟩

lemma sort_by_probability_sorted (l : List ScoredRecord) :
    List.Pairwise (fun a b : ScoredRecord => b.prob ≤ a.prob)
      (sort_by_probability l) := by
  unfold sort_by_probability
  rw [List.pairwise_reverse]
  exact List.sorted_insertionSort (fun a b => a.prob ≤ b.prob) l

lemma sort_by_probability_perm (l : List ScoredRecord) :
    List.Perm (sort_by_probability l) l :=
  List.Perm.trans (List.reverse_perm _) (List.perm_insertionSort _ l)

lemma assignPrefs_length (n : ℕ) (l : List ScoredRecord) :
    (assignPrefs n l).length = l.length := by
  induction l generalizing n with
  | nil => rfl
  | cons x xs ih => simp [assignPrefs, ih]

lemma assignPrefs_map_prob (n : ℕ) (l : List ScoredRecord) :
    (assignPrefs n l).map (fun row => row.probability) =
      l.map (fun s => s.prob) := by
  induction l generalizing n with
  | nil => rfl
  | cons x xs ih => simp [assignPrefs, mkRow, ih]

lemma assignPrefs_map_pref (n : ℕ) (l : List ScoredRecord) :
    (assignPrefs n l).map (fun row => row.preference) =
      List.range' n l.length := by
  induction l generalizing n with
  | nil => rfl
  | cons x xs ih => simp [assignPrefs, mkRow, ih, List.range']

lemma assignPrefs_pairwise {l : List ScoredRecord}
    (h : List.Pairwise (fun a b : ScoredRecord => b.prob ≤ a.prob) l)
    (n : ℕ) :
    List.Pairwise (fun a b : OutputRow => b.probability ≤ a.probability)
      (assignPrefs n l) := by
  induction l generalizing n with
  | nil => exact List.Pairwise.nil
  | cons x xs ih =>
    rcases List.pairwise_cons.1 h with ⟨hhead, htail⟩
    refine List.pairwise_cons.2 ⟨?_, ih htail (n + 1)⟩
    intro row hrow
    have hmem : row.probability ∈
        (assignPrefs (n + 1) xs).map (fun row => row.probability) :=
      List.mem_map_of_mem _ hrow
    rw [assignPrefs_map_prob] at hmem
    rcases List.mem_map.1 hmem with ⟨s, hs, heq⟩
    rw [← heq]
    exact hhead s hs

lemma assignPrefs_text_mem {row : OutputRow} :
    ∀ {l : List ScoredRecord} {n : ℕ}, row ∈ assignPrefs n l →
      (row.institute, row.branch, row.college_type, row.location) ∈
        l.map (fun s => (s.record.institute, s.record.program,
          s.record.college_type, s.record.location)) := by
  intro l
  induction l with
  | nil => intro n h; cases h
  | cons x xs ih =>
    intro n h
    rcases List.mem_cons.1 h with h | h
    · subst h
      simp [mkRow]
    · simp only [List.map_cons, List.mem_cons]
      exact Or.inr (ih h)

lemma dedupFirst_subset : ∀ l : List Record, dedupFirst l ⊆ l := by
  intro l
  induction l with
  | nil =>
    rw [dedupFirst]
    exact fun a ha => ha
  | cons x xs ih =>
    rw [dedupFirst]
    intro y hy
    rcases List.mem_cons.1 hy with h | h
    · exact h ▸ List.mem_cons_self x xs
    · exact List.mem_cons_of_mem x (ih (List.filter_subset' _ h))

lemma windowed_selection_subset (q : ℚ) (df : List Record) :
    windowed_selection q df ⊆ df := by
  unfold windowed_selection
  intro r hr
  have h := dedupFirst_subset _ hr
  rcases List.mem_append.1 h with h1 | h1
  · rcases List.mem_append.1 h1 with h2 | h2
    · exact List.filter_subset' df (List.take_subset _ _ h2)
    · exact List.filter_subset' df (List.take_subset _ _ h2)
  · exact List.filter_subset' df (List.take_subset _ _ h1)

lemma filter_records_subset (records : List Record)
    (cat ct br rnd : String) :
    filter_records records cat ct br rnd ⊆ records.map normalize_record := by
  unfold filter_records
  intro r hr
  have h3 := @List.filter_subset' Record (fun r : Record => r.round == rnd) _ _ hr
  have h2 : ∀ (l : List Record) (p : Record → Bool),
      (if toLowerStr br ≠ "all" then l.filter p else l) ⊆ l := by
    intro l p
    split_ifs
    · exact List.filter_subset' l
    · exact fun a ha => ha
  have h1 : ∀ (l : List Record) (p : Record → Bool),
      (if toUpperStr ct ≠ "ALL" then l.filter p else l) ⊆ l := by
    intro l p
    split_ifs
    · exact List.filter_subset' l
    · exact fun a ha => ha
  have h0 : ∀ (l : List Record) (p : Record → Bool),
      (if toLowerStr cat ≠ "all" then l.filter p else l) ⊆ l := by
    intro l p
    split_ifs
    · exact List.filter_subset' l
    · exact fun a ha => ha
  exact h0 _ _ (h1 _ _ (h2 _ _ h3))

/-! ### Concrete records for the pipeline runs -/

/-- A sample dataset row with mixed-case text fields. -/
def rec_a : Record :=
  ⟨"IIT A", "Computer Science", "iit", "X", "OPEN", "1", 100, 200⟩

/-- A second row identical to `rec_a` except for the institute name (same
cutoff window, hence the same admission probability). -/
def rec_b : Record :=
  ⟨"IIT B", "Computer Science", "iit", "X", "OPEN", "1", 100, 200⟩

/-- A row whose round is `2` (matched by no round-`1` query). -/
def rec_r2 : Record :=
  ⟨"IIT C", "Computer Science", "iit", "X", "OPEN", "2", 100, 200⟩

def rec_a_norm : Record :=
  ⟨"IIT A", "computer science", "IIT", "X", "open", "1", 100, 200⟩

def rec_b_norm : Record :=
  ⟨"IIT B", "computer science", "IIT", "X", "open", "1", 100, 200⟩

example : normalize_record rec_a = rec_a_norm := by decide

lemma filter_run1 :
    filter_records [rec_a] "All" "ALL" "All" "1" = [rec_a_norm] := by decide

lemma filter_run2 :
    filter_records [rec_a, rec_b] "All" "ALL" "All" "1" =
      [rec_a_norm, rec_b_norm] := by decide

lemma filter_empty_run :
    filter_records [rec_r2] "OPEN" "ALL" "All" "1" = [] := by decide

lemma windowed_run1 :
    windowed_selection 50 [rec_a_norm] = [rec_a_norm] := by
  norm_num [windowed_selection, dedupFirst, rec_a_norm, List.filter_cons,
    List.take_cons, List.take_nil]

lemma windowed_run2 :
    windowed_selection 50 [rec_a_norm, rec_b_norm] =
      [rec_a_norm, rec_b_norm] := by
  norm_num [windowed_selection, dedupFirst, rec_a_norm, rec_b_norm,
    List.filter_cons, List.take_cons, List.take_nil]
  decide

lemma windowed_neg_rank :
    windowed_selection (-5) [rec_a_norm] = [] := by
  norm_num [windowed_selection, dedupFirst, rec_a_norm, List.filter_cons,
    List.take_cons, List.take_nil]

lemma interpretation_99_4 :
    get_probability_interpretation (99.4 : ℝ) = "Very High Chance" := by
  unfold get_probability_interpretation
  rw [if_pos (by norm_num : (99.4 : ℝ) ≥ 95)]

lemma score_rec_a_norm :
    score_record 50 rec_a_norm =
      ⟨rec_a_norm, 99.4, "Very High Chance"⟩ := by
  unfold score_record
  rw [show ((50 : ℚ) : ℝ) = 50 by norm_num]
  rw [show ((rec_a_norm.opening_rank : ℚ) : ℝ) = 100 by norm_num [rec_a_norm]]
  rw [show ((rec_a_norm.closing_rank : ℚ) : ℝ) = 200 by norm_num [rec_a_norm]]
  rw [hybrid_50_100_200, interpretation_99_4]

lemma score_rec_b_norm :
    score_record 50 rec_b_norm =
      ⟨rec_b_norm, 99.4, "Very High Chance"⟩ := by
  unfold score_record
  rw [show ((50 : ℚ) : ℝ) = 50 by norm_num]
  rw [show ((rec_b_norm.opening_rank : ℚ) : ℝ) = 100 by norm_num [rec_b_norm]]
  rw [show ((rec_b_norm.closing_rank : ℚ) : ℝ) = 200 by norm_num [rec_b_norm]]
  rw [hybrid_50_100_200, interpretation_99_4]

lemma filter_pass_cons {s : ScoredRecord} {minp : ℝ}
    (h : decide (minp ≤ s.prob) = true) (rest : List ScoredRecord) :
    (s :: rest).filter (fun s => decide (minp ≤ s.prob)) =
      s :: rest.filter (fun s => decide (minp ≤ s.prob)) := by
  simp [List.filter_cons, h]

lemma sort_single (s : ScoredRecord) : sort_by_probability [s] = [s] := by
  simp [sort_by_probability, List.insertionSort, List.orderedInsert]

lemma sort_pair_tie {s t : ScoredRecord} (h : s.prob ≤ t.prob) :
    sort_by_probability [s, t] = [t, s] := by
  unfold sort_by_probability
  simp [List.insertionSort, List.orderedInsert, h]

def row_a1 : OutputRow :=
  ⟨1, "IIT A", "IIT", "X", "computer science", 100, 200, 99.4,
    "Very High Chance"⟩

def row_b1 : OutputRow :=
  ⟨1, "IIT B", "IIT", "X", "computer science", 100, 200, 99.4,
    "Very High Chance"⟩

def row_a2 : OutputRow :=
  ⟨2, "IIT A", "IIT", "X", "computer science", 100, 200, 99.4,
    "Very High Chance"⟩

lemma sort_nil : sort_by_probability [] = [] := by
  simp [sort_by_probability, List.insertionSort]

/-- Full evaluation of a one-record pipeline run. -/
lemma run1_eval :
    generate_preference_list 50 "All" "ALL" "All" "1" 0 [rec_a] =
      PipelineResult.ok [row_a1] := by
  unfold generate_preference_list
  rw [if_neg (by decide)]
  unfold predict_preferences
  rw [filter_run1, windowed_run1, if_neg (by decide)]
  rw [List.map_cons, List.map_nil, score_rec_a_norm]
  rw [filter_pass_cons (by simp only [decide_eq_true_eq]; norm_num) []]
  rw [List.filter_nil, sort_single]
  rfl

/-! ## Claim C5 -/

/-- C5, counterexample: two records that differ only in the institute name
(`rec_a` first, `rec_b` second) receive the same probability `99.4`, and
the pipeline outputs them in REVERSED original order (`IIT B` gets
preference 1, `IIT A` preference 2): pandas implements the descending sort
as the reverse of a stable ascending argsort, so equal-probability records
do NOT appear in their pre-sort relative order. -/
theorem tie_order_reversed :
    generate_preference_list 50 "All" "ALL" "All" "1" 0 [rec_a, rec_b] =
      PipelineResult.ok [row_b1, row_a2] := by
  unfold generate_preference_list
  rw [if_neg (by decide)]
  unfold predict_preferences
  rw [filter_run2, windowed_run2, if_neg (by decide)]
  rw [List.map_cons, List.map_cons, List.map_nil, score_rec_a_norm,
    score_rec_b_norm]
  rw [filter_pass_cons (by simp only [decide_eq_true_eq]; norm_num)]
  rw [filter_pass_cons (by simp only [decide_eq_true_eq]; norm_num) []]
  rw [List.filter_nil]
  rw [show sort_by_probability
      [⟨rec_a_norm, 99.4, "Very High Chance"⟩,
        ⟨rec_b_norm, 99.4, "Very High Chance"⟩] =
      [⟨rec_b_norm, 99.4, "Very High Chance"⟩,
        ⟨rec_a_norm, 99.4, "Very High Chance"⟩] from
    sort_pair_tie (le_of_eq rfl)]
  rfl

/-- C5 (amended): every `ok` result of the pipeline is sorted by
non-increasing `admissionProbability` (so all adjacent pairs satisfy
`probability[i] ≥ probability[i+1]`) and carries `preferenceRank`
exactly `1..N` in sorted order; the tie order among equal probabilities is
NOT the original filtered-set order (the descending sort reverses a stable
ascending sort — counterexample above). -/
theorem preference_list_sorted_ranked (q : ℚ) (cat ct br rnd : String)
    (minp : ℝ) (records : List Record) (rows : List OutputRow)
    (h : generate_preference_list q cat ct br rnd minp records =
      PipelineResult.ok rows) :
    List.Pairwise (fun a b : OutputRow => b.probability ≤ a.probability)
        rows ∧
      rows.map (fun row => row.preference) = List.range' 1 rows.length := by
  unfold generate_preference_list at h
  by_cases hv : (validate_inputs q cat ct br rnd).1 = false
  · rw [if_pos hv] at h
    exact absurd h (fun hc => PipelineResult.noConfusion hc)
  · rw [if_neg hv] at h
    unfold predict_preferences at h
    by_cases he : (filter_records records cat ct br rnd).isEmpty = true
    · rw [if_pos he] at h
      exact absurd h (fun hc => PipelineResult.noConfusion hc)
    · rw [if_neg he] at h
      injection h with h'
      rw [← h']
      constructor
      · exact assignPrefs_pairwise (sort_by_probability_sorted _) 1
      · rw [assignPrefs_map_pref, assignPrefs_length]

/-- Witness for C5 on the one-record run. -/
theorem preference_list_sorted_ranked_witness :
    List.Pairwise (fun a b : OutputRow => b.probability ≤ a.probability)
        [row_a1] ∧
      [row_a1].map (fun row => row.preference) =
        List.range' 1 [row_a1].length :=
  preference_list_sorted_ranked 50 "All" "ALL" "All" "1" 0 [rec_a]
    [row_a1] run1_eval

/-! ## Claim C6 -/

/-- C6, counterexample: `app.py`'s `generate_preference_list` (cited as a
source of the claim) has NO distinguished "no matches" result: on a query
matching zero records it returns an ordinary (empty) result table, not the
message result. -/
theorem app_pipeline_empty_not_distinguished :
    filter_records [rec_r2] "OPEN" "ALL" "All" "1" = [] ∧
      app_generate_preference_list 10 "OPEN" "ALL" "All" "1" 0 [rec_r2] =
        PipelineResult.ok [] ∧
      (∀ m, PipelineResult.ok ([] : List OutputRow) ≠
        PipelineResult.message m) := by
  refine ⟨filter_empty_run, ?_, fun m hc => PipelineResult.noConfusion hc⟩
  unfold app_generate_preference_list
  rw [filter_empty_run, List.map_nil, List.filter_nil, sort_nil]
  rfl

/-- C6 (amended): the `app/utils.py` pipeline (and `app/main.py`'s
`predict_preferences`, which shares the step) does return the
distinguished "no matches" message — distinct from a validation error —
whenever a valid query's filters match zero records; `app.py`'s variant
instead returns an ordinary empty result (counterexample above). -/
theorem utils_pipeline_no_matches_message (q : ℚ) (cat ct br rnd : String)
    (minp : ℝ) (records : List Record)
    (hv : (validate_inputs q cat ct br rnd).1 = true)
    (he : filter_records records cat ct br rnd = []) :
    generate_preference_list q cat ct br rnd minp records =
        PipelineResult.message "No colleges found matching your criteria" ∧
      (∀ msg, PipelineResult.message
          "No colleges found matching your criteria" ≠
        PipelineResult.error msg) := by
  constructor
  · unfold generate_preference_list
    rw [if_neg (by rw [hv]; exact fun hc => Bool.noConfusion hc)]
    unfold predict_preferences
    rw [he]
    rfl
  · intro msg hc
    exact PipelineResult.noConfusion hc

/-- Witness for C6: a valid round-1 query against a dataset whose only
record is in round 2. -/
theorem utils_pipeline_no_matches_witness :
    (validate_inputs 10 "OPEN" "ALL" "All" "1").1 = true ∧
      filter_records [rec_r2] "OPEN" "ALL" "All" "1" = [] ∧
      generate_preference_list 10 "OPEN" "ALL" "All" "1" 0 [rec_r2] =
        PipelineResult.message "No colleges found matching your criteria" :=
  ⟨by decide, filter_empty_run,
    (utils_pipeline_no_matches_message 10 "OPEN" "ALL" "All" "1" 0 [rec_r2]
      (by decide) filter_empty_run).1⟩

/-! ## Claim C7 -/

/-- C7, counterexample: `app/main.py`'s `predict_preferences` (cited as a
source of the claim) performs NO rank validation: on the non-positive
candidate rank `-5` it proceeds with filtering and scoring and returns an
ordinary result, not a validation error. -/
theorem main_pipeline_skips_validation :
    (-5 : ℚ) ≤ 0 ∧
      predict_preferences (-5) "All" "ALL" "All" "1" 0 [rec_a] =
        PipelineResult.ok [] ∧
      (∀ m, PipelineResult.ok ([] : List OutputRow) ≠
        PipelineResult.error m) := by
  refine ⟨by norm_num, ?_, fun m hc => PipelineResult.noConfusion hc⟩
  unfold predict_preferences
  rw [filter_run1, if_neg (by decide), windowed_neg_rank, List.map_nil,
    List.filter_nil, sort_nil]
  rfl

/-- C7 (amended): `app/utils.py`'s `generate_preference_list` validates
the candidate rank before any filtering or scoring and fails with the
validation-error result on every non-positive rank; `app/main.py`'s
`predict_preferences` performs no such validation (counterexample
above). -/
theorem utils_pipeline_rejects_nonpositive_rank (q : ℚ)
    (cat ct br rnd : String) (minp : ℝ) (records : List Record)
    (h : q ≤ 0) :
    (validate_inputs q cat ct br rnd).1 = false ∧
      generate_preference_list q cat ct br rnd minp records =
        PipelineResult.error (validate_inputs q cat ct br rnd).2 := by
  have hv : (validate_inputs q cat ct br rnd).1 = false := by
    unfold validate_inputs
    rw [if_pos h]
  refine ⟨hv, ?_⟩
  unfold generate_preference_list
  rw [if_pos hv]

/-- Witness for C7 at rank `0`. -/
theorem utils_pipeline_rejects_nonpositive_rank_witness :
    (0 : ℚ) ≤ 0 ∧ (validate_inputs 0 "OPEN" "NIT" "All" "1").1 = false ∧
      generate_preference_list 0 "OPEN" "NIT" "All" "1" 0 [] =
        PipelineResult.error (validate_inputs 0 "OPEN" "NIT" "All" "1").2 :=
  ⟨le_refl 0,
    (utils_pipeline_rejects_nonpositive_rank 0 "OPEN" "NIT" "All" "1" 0 []
      (le_refl 0)).1,
    (utils_pipeline_rejects_nonpositive_rank 0 "OPEN" "NIT" "All" "1" 0 []
      (le_refl 0)).2⟩

/-! ## Claim C10 -/

/-- C10, counterexample: the returned result rows do not carry a
`Category` field at all — the selected and renamed output columns are
exactly `result_columns` — so the claim's clause about a lowercased
`Category` in the returned rows is false. -/
theorem category_not_in_result_columns :
    "Category" ∉ result_columns := by decide

/-- C10 (amended): every output row of an `ok` pipeline result carries the
case-normalized text of a dataset record: its `Branch` is the lowercased
program name, its `College Type` the uppercased college type (with
institute and location unchanged), because the normalization for
case-insensitive matching is applied to the dataset before the output
columns are extracted.  `Category`, though also normalized in the working
dataset, is not an output column. -/
theorem output_rows_carry_normalized_text (q : ℚ) (cat ct br rnd : String)
    (minp : ℝ) (records : List Record) (rows : List OutputRow)
    (row : OutputRow)
    (h : generate_preference_list q cat ct br rnd minp records =
      PipelineResult.ok rows)
    (hrow : row ∈ rows) :
    (row.institute, row.branch, row.college_type, row.location) ∈
      records.map (fun r => (r.institute, toLowerStr r.program,
        toUpperStr r.college_type, r.location)) := by
  unfold generate_preference_list at h
  by_cases hv : (validate_inputs q cat ct br rnd).1 = false
  · rw [if_pos hv] at h
    exact absurd h (fun hc => PipelineResult.noConfusion hc)
  · rw [if_neg hv] at h
    unfold predict_preferences at h
    by_cases he : (filter_records records cat ct br rnd).isEmpty = true
    · rw [if_pos he] at h
      exact absurd h (fun hc => PipelineResult.noConfusion hc)
    · rw [if_neg he] at h
      injection h with h'
      rw [← h'] at hrow
      have h1 := assignPrefs_text_mem hrow
      have hperm := List.Perm.map
        (fun s : ScoredRecord => (s.record.institute, s.record.program,
          s.record.college_type, s.record.location))
        (sort_by_probability_perm
          ((( windowed_selection q
              (filter_records records cat ct br rnd)).map
            (score_record q)).filter (fun s => decide (minp ≤ s.prob))))
      have h2 := hperm.mem_iff.1 h1
      have h3 := List.map_subset
        (fun s : ScoredRecord => (s.record.institute, s.record.program,
          s.record.college_type, s.record.location))
        (List.filter_subset'
          ((windowed_selection q
            (filter_records records cat ct br rnd)).map
            (score_record q))) h2
      rw [List.map_map] at h3
      have h4 : (row.institute, row.branch, row.college_type,
          row.location) ∈
          (windowed_selection q
            (filter_records records cat ct br rnd)).map
            (fun r : Record => (r.institute, r.program, r.college_type,
              r.location)) := h3
      have h5 := List.map_subset
        (fun r : Record => (r.institute, r.program, r.college_type,
          r.location))
        (windowed_selection_subset q
          (filter_records records cat ct br rnd)) h4
      have h6 := List.map_subset
        (fun r : Record => (r.institute, r.program, r.college_type,
          r.location))
        (filter_records_subset records cat ct br rnd) h5
      rw [List.map_map] at h6
      exact h6

/-- Witness for C10 on the one-record run: the output row shows the
lowercased program (`"computer science"`) and the uppercased college type
(`"IIT"`) of the mixed-case source record `rec_a`. -/
theorem output_rows_carry_normalized_text_witness :
    (row_a1.institute, row_a1.branch, row_a1.college_type,
        row_a1.location) ∈
      [rec_a].map (fun r => (r.institute, toLowerStr r.program,
        toUpperStr r.college_type, r.location)) :=
  output_rows_carry_normalized_text 50 "All" "ALL" "All" "1" 0 [rec_a]
    [row_a1] row_a1 run1_eval (List.mem_cons_self row_a1 [])

end Josaa
